import Mathlib

/-!
Verification development for the multi-strategy invoice acquisition pipeline
implemented in `src/content-optimized.js` (class `ETAContentScriptOptimized`).

The JavaScript source is shallowly embedded: each method of the class becomes a
Lean definition of the same name; the mutable instance fields become an explicit
`ScriptState` record; host objects that the script only reads (API responses,
DOM rows, pagination markers in the rendered document) become explicit input
records; network and iframe I/O outcomes become explicit outcome parameters.
JavaScript strings keep the convention that the empty string is the falsy /
absent value (absent object properties and empty strings are both falsy and are
treated identically by every `x || y` expression in the source).
-/

/-- An exact decimal number: value `(if neg then -1 else 1) * sc / den`, with
`den` a positive power of ten.  This is the value domain we use for the
JavaScript numbers flowing through `formatAmount`; the portal serves decimal
amount literals, which are exact in this domain. -/
structure Dec where
  neg : Bool := false
  sc : ℕ := 0
  den : ℕ := 1
deriving Repr, DecidableEq

/-- A JavaScript value as it can appear in an amount field of an API item:
`null`/absent, a finite number, or a string.  (The source only feeds such
values to `formatAmount`.) -/
inductive JSVal where
  | null : JSVal
  | num : Dec → JSVal
  | str : String → JSVal
deriving Repr, DecidableEq

/-- JavaScript truthiness for the values of `JSVal`: `null` and absent are
falsy, `0` is falsy, the empty string is falsy. -/
def truthy : JSVal → Bool
  | .null => false
  | .num d => d.sc != 0
  | .str s => s != ""

/-- The JavaScript expression `a || b` for strings, where the empty string is
the falsy case (this also covers absent properties, which we encode as ""). -/
def jsOr (a b : String) : String := if a = "" then b else a

/-- Numeric value of a list of decimal digit characters, most significant
first. -/
def digitsVal (cs : List Char) : ℕ := cs.foldl (fun a c => a * 10 + (c.toNat - 48)) 0

/-- Model of `String.prototype.trim`: strip leading and trailing whitespace. -/
def jsTrim (s : String) : String :=
  String.mk (((s.toList.dropWhile Char.isWhitespace).reverse.dropWhile
    Char.isWhitespace).reverse)

/-- Model of the host function `parseFloat` on the decimal strings the portal
produces: optional leading whitespace, optional sign, an integer digit run and
an optional fraction digit run, at least one digit in total; any trailing
garbage is ignored, and `none` models the result NaN.  (The exponent form of
`parseFloat` is not modelled; no amount string of the portal uses it.) -/
def jsParseFloat (s : String) : Option Dec :=
  let cs := s.toList.dropWhile Char.isWhitespace
  let signed : Bool × List Char :=
    match cs with
    | '-' :: rest => (true, rest)
    | '+' :: rest => (false, rest)
    | _ => (false, cs)
  let intDigits := signed.2.takeWhile Char.isDigit
  let rest := signed.2.drop intDigits.length
  let fracDigits : List Char :=
    match rest with
    | '.' :: r => r.takeWhile Char.isDigit
    | _ => []
  if intDigits.isEmpty && fracDigits.isEmpty then none
  else some { neg := signed.1
              sc := digitsVal intDigits * 10 ^ fracDigits.length + digitsVal fracDigits
              den := 10 ^ fracDigits.length }

/-- `parseFloat` applied to a `JSVal` (a number is stringified and reparsed by
the host, which is the identity for the finite numbers we model). -/
def parseFloatVal : JSVal → Option Dec
  | .null => none
  | .num d => some d
  | .str s => jsParseFloat s

/-- Three-digit zero padding used for the non-leading groups of the en-US
thousands grouping. -/
def pad3 (m : ℕ) : String :=
  (if m < 10 then "00" else if m < 100 then "0" else "") ++ toString m

/-- Fuel-based rendering of a natural number with en-US thousands separators
(the fuel argument only bounds the recursion depth; `fuel = n` is always
enough since the recursive call divides by 1000). -/
def groupIntAux : ℕ → ℕ → String
  | 0, n => toString n
  | fuel + 1, n =>
    if n < 1000 then toString n
    else groupIntAux fuel (n / 1000) ++ "," ++ pad3 (n % 1000)

/-- Rendering of a natural number with en-US thousands separators. -/
def groupInt (n : ℕ) : String := groupIntAux n n

/-- Rounding used by `toLocaleString` with a fraction-digit bound (the default
Intl rounding mode rounds half away from zero): the number of cents of the
non-negative value `sc / den`, rounded, is `floor(100 * sc / den + 1 / 2) =
(200 * sc + den) / (2 * den)` in integer arithmetic. -/
def roundCents (sc den : ℕ) : ℕ := (200 * sc + den) / (2 * den)

/-- Model of `x.toLocaleString(en-US, minimumFractionDigits 2,
maximumFractionDigits 2)` for a non-negative decimal value `sc / den`. -/
def toLocaleTwoDigitsNN (sc den : ℕ) : String :=
  let n := roundCents sc den
  groupInt (n / 100) ++ "." ++ String.mk [Nat.digitChar (n % 100 / 10), Nat.digitChar (n % 10)]

/-- Model of `x.toLocaleString(en-US, minimumFractionDigits 2,
maximumFractionDigits 2)` for any finite decimal value. -/
def toLocaleTwoDigits (d : Dec) : String :=
  if d.neg then "-" ++ toLocaleTwoDigitsNN d.sc d.den else toLocaleTwoDigitsNN d.sc d.den

/-- Embedding of `formatAmount` (content-optimized.js, lines 381 to 387):
falsy input gives the empty string, otherwise the parsed value is rendered
with two fraction digits; an unparseable non-empty string parses to NaN and
renders as the string NaN. -/
def formatAmount (amount : JSVal) : String :=
  if !truthy amount then ""
  else
    match parseFloatVal amount with
    | none => "NaN"
    | some d => toLocaleTwoDigits d

/-- The fixed status localization table of `parseStatus` (lines 360 to 369). -/
def statusMap (s : String) : Option String :=
  if s = "Valid" then some "صالح"
  else if s = "Invalid" then some "غير صالح"
  else if s = "Cancelled" then some "ملغي"
  else if s = "Submitted" then some "مقدم"
  else if s = "Rejected" then some "مرفوض"
  else none

/-- Embedding of `parseStatus`: `statusMap[status] || status || ""` (every
table entry is a non-empty, hence truthy, string). -/
def parseStatus (status : String) : String :=
  match statusMap status with
  | some t => t
  | none => jsOr status ""

/-- Embedding of `formatDate` (lines 371 to 379).  The host date rendering
`(new Date s).toLocaleDateString(ar-EG)` is an uninterpreted host-locale
function and is passed in as the parameter `fmtDate`; the guard on the falsy
(empty) date string is the part the source owns. -/
def formatDate (fmtDate : String → String) (dateString : String) : String :=
  if dateString = "" then "" else fmtDate dateString

/-- One raw item of a JSON API response, with exactly the properties the
source reads.  Absent properties are encoded as "" (strings) or `JSVal.null`
(amounts); both are falsy, as in the source. -/
structure APIItem where
  uuid : String := ""
  id : String := ""
  internalId : String := ""
  documentType : String := ""
  documentTypeVersion : String := ""
  status : String := ""
  dateTimeIssued : String := ""
  dateTimeReceived : String := ""
  totalAmount : JSVal := .null
  totalSalesAmount : JSVal := .null
  totalTaxableFees : JSVal := .null
  issuerName : String := ""
  issuerId : String := ""
  receiverName : String := ""
  receiverId : String := ""
deriving Repr, DecidableEq

/-- A JSON API response body; the source looks for the item list under the
keys items, documents and data, first present key wins (`none` = absent key;
an empty list under a present key is truthy in the source since arrays are
truthy). -/
structure APIResponse where
  items : Option (List APIItem) := none
  documents : Option (List APIItem) := none
  data : Option (List APIItem) := none
deriving Repr, DecidableEq

/-- The key selection `data.items || data.documents || data.data || []` at the
top of `parseAPIResponse` (line 180). -/
def selectInvoices (resp : APIResponse) : List APIItem :=
  match resp.items with
  | some l => l
  | none =>
    match resp.documents with
    | some l => l
    | none => resp.data.getD []

/-- The canonical normalized invoice record (the object literals built at
lines 182 to 203 and 443 to 450).  Every field a source path does not set
defaults to "" (respectively 0 for the numeric ordinals), matching the
object-literal defaults of the source. -/
structure InvoiceRecord where
  index : ℕ := 0
  serialNumber : ℕ := 0
  pageNumber : ℕ := 0
  electronicNumber : String := ""
  internalNumber : String := ""
  documentType : String := ""
  documentVersion : String := ""
  status : String := ""
  issueDate : String := ""
  submissionDate : String := ""
  totalAmount : String := ""
  invoiceValue : String := ""
  vatAmount : String := ""
  sellerName : String := ""
  sellerTaxNumber : String := ""
  buyerName : String := ""
  buyerTaxNumber : String := ""
  invoiceCurrency : String := ""
  taxDiscount : String := ""
  electronicSignature : String := ""
  externalLink : String := ""
deriving Repr, DecidableEq

/-- Embedding of `generateExternalLink` (lines 389 to 392): empty unless the
item has a (truthy) uuid; `substring(0, 26)` is `String.take 26`. -/
def generateExternalLink (item : APIItem) : String :=
  if item.uuid = "" then ""
  else "https://invoicing.eta.gov.eg/documents/" ++ item.uuid ++ "/share/" ++
    item.uuid.take 26

/-- Embedding of `parseAPIResponse` (lines 179 to 204).  `fmtDate` is the host
date-locale function used by `formatDate`.  Note that no validity filter is
applied on this path: every raw item yields a record. -/
def parseAPIResponse (fmtDate : String → String) (resp : APIResponse)
    (pageNumber resultsPerPage : ℕ) : List InvoiceRecord :=
  (selectInvoices resp).mapIdx fun index item =>
    { serialNumber := (pageNumber - 1) * resultsPerPage + index + 1
      pageNumber := pageNumber
      electronicNumber := jsOr (jsOr item.uuid item.id) ""
      internalNumber := jsOr item.internalId ""
      documentType := jsOr item.documentType "فاتورة"
      documentVersion := jsOr item.documentTypeVersion "1.0"
      status := parseStatus item.status
      issueDate := formatDate fmtDate item.dateTimeIssued
      submissionDate := formatDate fmtDate item.dateTimeReceived
      totalAmount := formatAmount item.totalAmount
      invoiceValue := formatAmount item.totalSalesAmount
      vatAmount := formatAmount item.totalTaxableFees
      sellerName := jsOr item.issuerName ""
      sellerTaxNumber := jsOr item.issuerId ""
      buyerName := jsOr item.receiverName ""
      buyerTaxNumber := jsOr item.receiverId ""
      invoiceCurrency := "EGP"
      taxDiscount := "0"
      electronicSignature := "موقع إلكترونياً"
      externalLink := generateExternalLink item }

/-- One markup row of the invoice grid, reduced to the two descendant texts the
source reads: the text of the link inside the cell with automation key uuid
and the text of the gray title element inside the cell with automation key
total.  `none` encodes a missing cell or missing inner element. -/
structure Row where
  uuidLinkText : Option String := none
  totalTitleText : Option String := none
deriving Repr, DecidableEq

/-- Embedding of `extractUsingDataAttributes` (lines 456 to 479): each present
cell assigns its trimmed text (`textContent?.trim() || ""`). -/
def extractUsingDataAttributes (row : Row) (invoice : InvoiceRecord) : InvoiceRecord :=
  let invoice :=
    match row.uuidLinkText with
    | some t => { invoice with electronicNumber := jsOr (jsTrim t) "" }
    | none => invoice
  match row.totalTitleText with
  | some t => { invoice with totalAmount := jsOr (jsTrim t) "" }
  | none => invoice

/-- Embedding of `extractDataFromRow` (lines 441 to 454): a record with the
given index and all other fields at their defaults, then the data-attribute
extraction pass. -/
def extractDataFromRow (row : Row) (index : ℕ) : InvoiceRecord :=
  extractUsingDataAttributes row { index := index, serialNumber := index }

/-- Embedding of `isValidInvoiceData` (lines 511 to 513). -/
def isValidInvoiceData (invoice : InvoiceRecord) : Bool :=
  invoice.electronicNumber != "" || invoice.internalNumber != "" ||
    invoice.totalAmount != ""

/-- Embedding of `extractDataFromDocument` (lines 297 to 311): the grid rows
of a document loaded out of band, each extracted at its 1-based row index,
kept only if valid, and stamped with the page number and the page-spanning
serial number. -/
def extractDataFromDocument (rows : List Row) (pageNumber resultsPerPage : ℕ) :
    List InvoiceRecord :=
  (rows.mapIdx fun index row =>
    let invoice := extractDataFromRow row (index + 1)
    if isValidInvoiceData invoice then
      some { invoice with
        pageNumber := pageNumber
        serialNumber := (pageNumber - 1) * resultsPerPage + index + 1 }
    else none).reduceOption

/-- Embedding of the record-collection part of `scanForInvoices` (lines 395 to
407); the input is the list of visible invoice rows that
`getVisibleInvoiceRows` returned. -/
def scanForInvoices (visibleRows : List Row) : List InvoiceRecord :=
  (visibleRows.mapIdx fun index row =>
    let d := extractDataFromRow row (index + 1)
    if isValidInvoiceData d then some d else none).reduceOption

/-- The mutable instance fields of `ETAContentScriptOptimized` that the
acquisition pipeline reads and writes (constructor, lines 3 to 14).
`apiEndpoint` is the detected documents API URL (`none` until observed) and
`hasAuthHeaders` records whether `extractAuthHeaders` found a token. -/
structure ScriptState where
  totalCount : ℕ := 0
  currentPage : ℕ := 1
  totalPages : ℕ := 1
  resultsPerPage : ℕ := 50
  isProcessingAllPages : Bool := false
  apiEndpoint : Option String := none
  hasAuthHeaders : Bool := false
  allPagesData : List InvoiceRecord := []
deriving Repr, DecidableEq

/-- The pagination signals readable from the rendered page: the number of the
first localized Results match in the visible text (`none` when absent), and
the parsed page number of the active pagination control (`none` when absent
or unparseable). -/
structure PageDoc where
  resultsCount : Option ℕ := none
  activePage : Option ℕ := none
deriving Repr, DecidableEq

/-- Embedding of `extractTotalCount` (lines 488 to 500): the matched count, or
0 when no Results pattern is found. -/
def extractTotalCount (doc : PageDoc) : ℕ := doc.resultsCount.getD 0

/-- Embedding of `extractCurrentPage` (lines 502 to 509): the parsed page of
the active control, defaulting to 1. -/
def extractCurrentPage (doc : PageDoc) : ℕ := doc.activePage.getD 1

/-- Embedding of `extractPaginationInfo` (lines 481 to 486):
`totalPages = Math.ceil(totalCount / resultsPerPage)` with the fixed page size
50; the ceiling of `c / 50` over ℕ is `(c + 49) / 50`. -/
def extractPaginationInfo (st : ScriptState) (doc : PageDoc) : ScriptState :=
  let totalCount := extractTotalCount doc
  { st with
    totalCount := totalCount
    currentPage := extractCurrentPage doc
    resultsPerPage := 50
    totalPages := (totalCount + 50 - 1) / 50 }

/-- The acquisition result object returned by the pipeline entry points
(lines 105 to 109, 136 to 141, 252 to 257).  The failure path of
`getAllPagesDataFast` omits the two counters, hence the options. -/
structure AcquisitionResult where
  success : Bool
  data : List InvoiceRecord
  totalProcessed : Option ℕ := none
  expectedTotal : Option ℕ := none
  error : Option String := none
deriving Repr, DecidableEq

/-- Outcome of one `fetch` of a page via the API, as observable by
`fetchPageDataViaAPI`: the fetch itself may reject, the JSON body may fail to
parse, or a response arrives with its ok flag and parsed body. -/
inductive FetchOutcome where
  | networkError : String → FetchOutcome
  | badJson : FetchOutcome
  | response : Bool → APIResponse → FetchOutcome
deriving Repr, DecidableEq

/-- Embedding of `fetchPageDataViaAPI` (lines 144 to 165): every failure
(rejected fetch, non-ok response via the thrown error, unparseable body) is
caught and yields the empty list; an ok response is parsed by
`parseAPIResponse`.  The function is total: no failure escapes. -/
def fetchPageDataViaAPI (fmtDate : String → String) (outcome : FetchOutcome)
    (pageNumber resultsPerPage : ℕ) : List InvoiceRecord :=
  match outcome with
  | .networkError _ => []
  | .badJson => []
  | .response ok body =>
    if ok then parseAPIResponse fmtDate body pageNumber resultsPerPage else []

/-- Number of iterations of a counted loop that advances by `s` (s = step,
starting below `n`, counting `0, s, 2 * s, ...` while `< n`, equivalently
pages `1, 1 + s, ...` while `≤ n`): `⌈n / s⌉`. -/
def numBatches (n s : ℕ) : ℕ := if n = 0 then 0 else (n - 1) / s + 1

/-- Embedding of the batch grouping of `getAllPagesViaAPI` (lines 119 to 128):
iteration k of the outer loop has `page = k * s + 1` and the inner loop pushes
`page + i` for `i = 0, 1, ...` while `i < s && page + i ≤ n` (the conjunction
is an embedding of the inner loop bound, written as a takeWhile because the
loop stops at the first failing index). -/
def apiBatches (n s : ℕ) : List (List ℕ) :=
  (List.range (numBatches n s)).map fun k =>
    ((List.range s).map fun i => k * s + 1 + i).takeWhile fun p => decide (p ≤ n)

/-- Embedding of the batch grouping of `loadPagesInParallel` (lines 232 to
233): iteration k takes `urls.slice(i, i + s)` with `i = k * s`. -/
def domBatches (urls : List α) (s : ℕ) : List (List α) :=
  (List.range (numBatches urls.length s)).map fun k => (urls.drop (k * s)).take s

/-- Embedding of `getAllPagesViaAPI` (lines 115 to 142): the pages 1 to
totalPages grouped in batches of 10, each page fetched by
`fetchPageDataViaAPI`, the per-batch result lists flattened twice
(`results.flat().flat()`). -/
def getAllPagesViaAPI (fmtDate : String → String) (st : ScriptState)
    (outcome : ℕ → FetchOutcome) : AcquisitionResult :=
  let results := (apiBatches st.totalPages 10).map fun b =>
    b.map fun p => fetchPageDataViaAPI fmtDate (outcome p) p st.resultsPerPage
  let allData := results.flatten.flatten
  { success := true
    data := allData
    totalProcessed := some allData.length
    expectedTotal := some st.totalCount }

/-- Embedding of `generateAllPageUrls` (lines 215 to 226): one URL per page
number 1 to totalPages, in page order.  A URL is identified by the page number
its page query parameter carries, which is the only part of it the model
reads. -/
def generateAllPageUrls (st : ScriptState) : List ℕ := List.range' 1 st.totalPages

/-- Outcome of one hidden-iframe page load as observable by
`loadPageInIframe`: either the load event fired and the document rows could be
read, or the load failed (error event, timeout, or a thrown extraction
error). -/
inductive LoadPageOutcome where
  | loaded : List Row → LoadPageOutcome
  | failed : LoadPageOutcome
deriving Repr, DecidableEq

/-- The value `loadPageInIframe` resolves with (lines 260 to 295): the
extracted rows of the loaded document, or the empty list on any failure. -/
def loadPageInIframeResult (o : LoadPageOutcome) (pageNumber resultsPerPage : ℕ) :
    List InvoiceRecord :=
  match o with
  | .loaded rows => extractDataFromDocument rows pageNumber resultsPerPage
  | .failed => []

/-- One progress-callback invocation argument (lines 243 to 248). -/
structure ProgressReport where
  currentPage : ℕ
  totalPages : ℕ
  message : String
  percentage : ℚ
deriving Repr

/-- Embedding of `loadPagesInParallel` (lines 228 to 258).  Batches of 5 urls
are loaded; batch k passes the absolute 1-based position `k * 5 + index + 1`
as the page number; the batch results are flattened and appended in batch
order; after each batch the progress report for `min(k * 5 + 5, n)` completed
pages is emitted (the reports are collected in order; the source only emits
them when a callback is registered, which does not change the data result).
The per-url load outcomes are the parameter `out`. -/
def loadPagesInParallel (st : ScriptState) (out : ℕ → LoadPageOutcome)
    (urls : List ℕ) : AcquisitionResult × List ProgressReport :=
  let n := urls.length
  let ks := List.range (numBatches n 5)
  let results := (ks.map fun k =>
    ((urls.drop (k * 5)).take 5).mapIdx fun index url =>
      loadPageInIframeResult (out url) (k * 5 + index + 1) st.resultsPerPage).flatten.flatten
  let reports := ks.map fun k =>
    { currentPage := min (k * 5 + 5) n
      totalPages := n
      message := "تم تحميل " ++ toString (min (k * 5 + 5) n) ++ " من " ++
        toString n ++ " صفحة"
      percentage := (((min (k * 5 + 5) n : ℕ) : ℚ) / n) * 100 }
  ({ success := true
     data := results
     totalProcessed := some results.length
     expectedTotal := some st.totalCount }, reports)

/-- Embedding of `getAllPagesViaOptimizedDOM` (lines 207 to 213). -/
def getAllPagesViaOptimizedDOM (st : ScriptState) (out : ℕ → LoadPageOutcome) :
    AcquisitionResult × List ProgressReport :=
  loadPagesInParallel st out (generateAllPageUrls st)

/-- Embedding of the try/catch/finally frame of `getAllPagesDataFast` (lines
88 to 113): the flag is raised and the buffer cleared on entry; the selected
inner path runs (its possible uncaught exception is the `Except.error` case);
an error yields `success = false` with the accumulated `allPagesData` buffer
and the message; the finally clause clears the flag on both exits. -/
def getAllPagesDataFastE (st : ScriptState)
    (run : ScriptState → Except String AcquisitionResult) :
    AcquisitionResult × ScriptState :=
  let st1 := { st with isProcessingAllPages := true, allPagesData := [] }
  match run st1 with
  | .ok r => (r, { st1 with isProcessingAllPages := false })
  | .error msg =>
    ({ success := false
       data := st1.allPagesData
       error := some msg },
     { st1 with isProcessingAllPages := false })

/-- Embedding of `getAllPagesDataFast` (lines 88 to 113) composed with its
path selection (line 96): the API path runs when both an endpoint and auth
headers were observed, the DOM fallback otherwise; no inner path of the
embedding throws. -/
def getAllPagesDataFast (fmtDate : String → String) (st : ScriptState)
    (apiOut : ℕ → FetchOutcome) (domOut : ℕ → LoadPageOutcome) :
    AcquisitionResult × ScriptState :=
  getAllPagesDataFastE st fun st1 =>
    .ok (if st1.apiEndpoint.isSome && st1.hasAuthHeaders then
      getAllPagesViaAPI fmtDate st1 apiOut
    else (getAllPagesViaOptimizedDOM st1 domOut).1)

/-- Scheduling events of the batched pipelines under the single-threaded
JavaScript execution model: `start p` is the moment the fetch or iframe load
of page `p` is issued (the synchronous prefix of the async callee runs up to
its first internal await at the call site itself), and `awaitBatch` is an
`await Promise.all` of a whole batch. -/
inductive FetchEv where
  | start : ℕ → FetchEv
  | awaitBatch : FetchEv
deriving Repr, DecidableEq

/-- The issue trace of `getAllPagesViaAPI` (lines 115 to 131): the loop body
contains no await, and `batch.push(this.fetchPageDataViaAPI(currentPage))`
issues the fetch of every page of every batch synchronously; the single
`await Promise.all(pagePromises)` after the loop is the only suspension. -/
def apiIssueTrace (totalPages : ℕ) : List FetchEv :=
  ((apiBatches totalPages 10).map fun b => b.map FetchEv.start).flatten ++
    [FetchEv.awaitBatch]

/-- The issue trace of a loop that starts each batch and then awaits it
before the next iteration. -/
def batchedTrace (batches : List (List ℕ)) : List FetchEv :=
  (batches.map fun b => b.map FetchEv.start ++ [FetchEv.awaitBatch]).flatten

/-- The issue trace of `loadPagesInParallel` (lines 228 to 250): each loop
iteration issues the loads of its 5-url slice and then suspends on
`await Promise.all(batchPromises)` before the next iteration starts. -/
def domIssueTrace (totalPages : ℕ) : List FetchEv :=
  batchedTrace (domBatches (List.range' 1 totalPages) 5)

/-- Number of whole-batch awaits that are executed strictly before the fetch
of page `p` is issued in a trace. -/
def awaitsBefore (tr : List FetchEv) (p : ℕ) : ℕ :=
  (tr.takeWhile fun e => decide (e ≠ FetchEv.start p)).countP
    fun e => decide (e = FetchEv.awaitBatch)

/-- Events observable by one `loadPageInIframe` promise (lines 260 to 295):
the load event with readable rows, the load event with a throwing extraction
(for example a cross-origin document), the error event, and the firing of the
10 second timeout. -/
inductive LoadEv where
  | loadOk : List Row → LoadEv
  | loadExtractErr : LoadEv
  | loadErr : LoadEv
  | timeoutFire : LoadEv
deriving Repr, DecidableEq

/-- The observable state of one `loadPageInIframe` call: whether the iframe
is still attached to the document body, whether the timeout is still armed,
the value the promise has resolved with (`none` while pending; a later
resolve of an already settled promise is a no-op), and how many
`removeChild(iframe)` teardowns have executed. -/
structure IframeState where
  attached : Bool := true
  timerActive : Bool := true
  result : Option (List InvoiceRecord) := none
  removals : ℕ := 0
deriving Repr, DecidableEq

/-- Promise resolution: only the first resolve settles the value. -/
def resolveIframe (st : IframeState) (r : List InvoiceRecord) : IframeState :=
  match st.result with
  | some _ => st
  | none => { st with result := some r }

/-- `document.body.removeChild(iframe)`: the iframe leaves the document. -/
def removeIframe (st : IframeState) : IframeState :=
  { st with attached := false, removals := st.removals + 1 }

/-- `clearTimeout(timeout)`: the timer is disarmed. -/
def clearTimer (st : IframeState) : IframeState := { st with timerActive := false }

/-- The handler bodies of `loadPageInIframe` (lines 266 to 291), one step per
fired event: the timeout callback removes the iframe and resolves with the
empty list (the timer is spent by firing); the load handler extracts, clears
the timeout, removes the iframe and resolves with the data, with the throwing
variant resolving with the empty list instead; the error handler clears the
timeout, removes the iframe and resolves with the empty list. -/
def iframeStep (pageNumber resultsPerPage : ℕ) (st : IframeState) :
    LoadEv → IframeState
  | .timeoutFire => resolveIframe (removeIframe { st with timerActive := false }) []
  | .loadOk rows =>
    resolveIframe (removeIframe (clearTimer st))
      (extractDataFromDocument rows pageNumber resultsPerPage)
  | .loadExtractErr => resolveIframe (removeIframe (clearTimer st)) []
  | .loadErr => resolveIframe (removeIframe (clearTimer st)) []

/-- Which events the browser can deliver in a given state: load and error
fire only while the iframe is attached (removing the iframe cancels its load),
and the timeout fires only while armed. -/
def canFire (st : IframeState) : LoadEv → Bool
  | .timeoutFire => st.timerActive
  | _ => st.attached

/-- Run the handlers over a sequence of fired events. -/
def iframeRun (pageNumber resultsPerPage : ℕ) :
    IframeState → List LoadEv → IframeState
  | st, [] => st
  | st, ev :: evs =>
    iframeRun pageNumber resultsPerPage (iframeStep pageNumber resultsPerPage st ev) evs

/-- A sequence of events is admissible when each event can fire in the state
it finds. -/
def admissibleEvents (pageNumber resultsPerPage : ℕ) :
    IframeState → List LoadEv → Bool
  | _, [] => true
  | st, ev :: evs =>
    canFire st ev &&
      admissibleEvents pageNumber resultsPerPage
        (iframeStep pageNumber resultsPerPage st ev) evs

/-- The state of `loadPageInIframe` right after `document.body.appendChild`
(line 293): iframe attached, timer armed, promise pending, no teardown yet. -/
def iframeInit : IframeState := {}

/-- Number of raw items a fetch outcome carries into `parseAPIResponse`. -/
def fetchItemCount : FetchOutcome → ℕ
  | .response true body => (selectInvoices body).length
  | _ => 0

/-- Number of grid rows a load outcome carries into
`extractDataFromDocument`. -/
def loadRowCount : LoadPageOutcome → ℕ
  | .loaded rows => rows.length
  | .failed => 0

/-- A rendered amount ends in a decimal point followed by exactly two digit
characters. -/
def twoFracDigits (s : String) : Bool :=
  match s.toList.reverse with
  | c2 :: c1 :: c3 :: _ => c2.isDigit && c1.isDigit && decide (c3 = '.')
  | _ => false

/-- Closed form shared by both batch groupings: batch k is the page interval
starting at `k * s + 1` of length `min s (n - k * s)`. -/
def pageBatches (n s : ℕ) : List (List ℕ) :=
  (List.range (numBatches n s)).map fun k => List.range' (k * s + 1) (min s (n - k * s))

theorem takeWhile_le_range' (n : ℕ) :
    ∀ (m a : ℕ), (List.range' a m).takeWhile (fun p => decide (p ≤ n)) =
      List.range' a (min m (n + 1 - a)) := by
  intro m
  induction m with
  | zero => intro a; simp
  | succ m ih =>
    intro a
    rw [List.range'_succ, List.takeWhile_cons]
    by_cases ha : a ≤ n
    · rw [if_pos (by simpa using ha), ih (a + 1),
        show min (m + 1) (n + 1 - a) = min m (n + 1 - (a + 1)) + 1 by omega,
        List.range'_succ]
    · rw [if_neg (by simpa using ha), show min (m + 1) (n + 1 - a) = 0 by omega,
        List.range'_zero]

theorem drop_range'_eq (i : ℕ) :
    ∀ (m a : ℕ), (List.range' a m).drop i = List.range' (a + i) (m - i) := by
  induction i with
  | zero => intro m a; simp
  | succ i ih =>
    intro m a
    cases m with
    | zero => simp
    | succ m =>
      rw [List.range'_succ, List.drop_succ_cons, ih m (a + 1)]
      congr 1 <;> omega

theorem take_range'_eq (i : ℕ) :
    ∀ (m a : ℕ), (List.range' a m).take i = List.range' a (min i m) := by
  induction i with
  | zero => intro m a; simp
  | succ i ih =>
    intro m a
    cases m with
    | zero => simp
    | succ m =>
      rw [List.range'_succ, List.take_succ_cons, ih m (a + 1),
        show min (i + 1) (m + 1) = min i m + 1 by omega, List.range'_succ]

theorem apiBatches_eq_pageBatches (n s : ℕ) : apiBatches n s = pageBatches n s := by
  unfold apiBatches pageBatches
  refine List.map_congr_left fun k _ => ?_
  rw [show (fun i => k * s + 1 + i) = ((k * s + 1) + ·) from rfl,
    ← List.range'_eq_map_range (k * s + 1) s, takeWhile_le_range' n s (k * s + 1)]
  congr 1
  omega

theorem domBatches_eq_pageBatches (n s : ℕ) :
    domBatches (List.range' 1 n) s = pageBatches n s := by
  unfold domBatches pageBatches
  rw [List.length_range']
  refine List.map_congr_left fun k _ => ?_
  rw [drop_range'_eq (k * s) n 1, take_range'_eq s (n - k * s) (1 + k * s)]
  congr 1
  omega

theorem numBatches_of_lt {n s : ℕ} (hs : 0 < s) (h : s < n) :
    numBatches n s = numBatches (n - s) s + 1 := by
  unfold numBatches
  rw [if_neg (by omega), if_neg (by omega),
    show n - 1 = (n - s - 1) + s by omega, Nat.add_div_right _ hs]

theorem pageBatches_of_lt {n s : ℕ} (hs : 0 < s) (h : s < n) :
    pageBatches n s =
      List.range' 1 s :: (pageBatches (n - s) s).map (List.map (s + ·)) := by
  unfold pageBatches
  rw [numBatches_of_lt hs h, List.range_succ_eq_map, List.map_cons, List.map_map]
  congr 1
  · rw [Nat.zero_mul, Nat.zero_add, Nat.sub_zero, Nat.min_eq_left (by omega)]
  · rw [List.map_map]
    refine List.map_congr_left fun k _ => ?_
    simp only [Function.comp]
    rw [List.map_add_range', Nat.succ_mul, Nat.add_comm (k * s) s, ← Nat.sub_sub,
      Nat.add_assoc]

theorem pageBatches_flatten {s : ℕ} (hs : 0 < s) :
    ∀ n, (pageBatches n s).flatten = List.range' 1 n := by
  intro n
  induction n using Nat.strong_induction_on with
  | _ n ih =>
    rcases Nat.eq_zero_or_pos n with hn | hn
    · subst hn
      simp [pageBatches, numBatches]
    · by_cases hns : s < n
      · rw [pageBatches_of_lt hs hns, List.flatten_cons, ← List.map_flatten,
          ih (n - s) (by omega), List.map_add_range',
          show s + 1 = 1 + s by omega, List.range'_append_1]
        congr 1
        omega
      · unfold pageBatches numBatches
        rw [if_neg (by omega), Nat.div_eq_of_lt (by omega),
          show List.range (0 + 1) = [0] from rfl]
        simp only [List.map_cons, List.map_nil, List.flatten_cons,
          List.flatten_nil, List.append_nil]
        rw [Nat.zero_mul, Nat.zero_add, Nat.sub_zero, Nat.min_eq_right (by omega)]

theorem apiBatches_flatten (n : ℕ) : (apiBatches n 10).flatten = List.range' 1 n := by
  rw [apiBatches_eq_pageBatches]
  exact pageBatches_flatten (by omega) n

theorem domBatches_flatten (n : ℕ) :
    (domBatches (List.range' 1 n) 5).flatten = List.range' 1 n := by
  rw [domBatches_eq_pageBatches]
  exact pageBatches_flatten (by omega) n

theorem flatten_flatten_map_map (B : List (List ℕ)) (g : ℕ → List β) :
    ((B.map fun b => b.map g).flatten).flatten = (B.flatten.map g).flatten := by
  rw [List.map_flatten]

theorem getAllPagesViaAPI_data (fmtDate : String → String) (st : ScriptState)
    (outcome : ℕ → FetchOutcome) :
    (getAllPagesViaAPI fmtDate st outcome).data =
      ((List.range' 1 st.totalPages).map fun p =>
        fetchPageDataViaAPI fmtDate (outcome p) p st.resultsPerPage).flatten := by
  unfold getAllPagesViaAPI
  dsimp only
  rw [flatten_flatten_map_map, apiBatches_flatten]

theorem mapIdx_range' :
    ∀ (m a : ℕ) (f : ℕ → ℕ → β),
      (List.range' a m).mapIdx f = (List.range m).map fun i => f i (a + i) := by
  intro m
  induction m with
  | zero => intro a f; simp
  | succ m ih =>
    intro a f
    rw [List.range'_succ, List.mapIdx_cons, ih (a + 1) fun i x => f (i + 1) x,
      List.range_succ_eq_map, List.map_cons, List.map_map]
    congr 1
    refine List.map_congr_left fun i _ => ?_
    simp only [Function.comp]
    rw [show a + 1 + i = a + (i + 1) by omega]

theorem loadBatch_eq (st : ScriptState) (out : ℕ → LoadPageOutcome) (n k : ℕ) :
    ((((List.range' 1 n).drop (k * 5)).take 5).mapIdx fun index url =>
        loadPageInIframeResult (out url) (k * 5 + index + 1) st.resultsPerPage) =
      (List.range' (k * 5 + 1) (min 5 (n - k * 5))).map fun p =>
        loadPageInIframeResult (out p) p st.resultsPerPage := by
  rw [drop_range'_eq, take_range'_eq,
    mapIdx_range' (min 5 (n - k * 5)) (1 + k * 5),
    List.range'_eq_map_range (k * 5 + 1), List.map_map]
  refine List.map_congr_left fun i _ => ?_
  simp only [Function.comp]
  rw [show 1 + k * 5 + i = k * 5 + 1 + i by omega, show k * 5 + i + 1 = k * 5 + 1 + i by omega]

theorem loadPagesInParallel_data (st : ScriptState) (out : ℕ → LoadPageOutcome)
    (n : ℕ) :
    (loadPagesInParallel st out (List.range' 1 n)).1.data =
      ((List.range' 1 n).map fun p =>
        loadPageInIframeResult (out p) p st.resultsPerPage).flatten := by
  unfold loadPagesInParallel
  simp only [List.length_range']
  rw [show ((List.range (numBatches n 5)).map fun k =>
        (((List.range' 1 n).drop (k * 5)).take 5).mapIdx fun index url =>
          loadPageInIframeResult (out url) (k * 5 + index + 1) st.resultsPerPage) =
      (pageBatches n 5).map (List.map fun p =>
        loadPageInIframeResult (out p) p st.resultsPerPage) by
    unfold pageBatches
    rw [List.map_map]
    exact List.map_congr_left fun k _ => loadBatch_eq st out n k]
  rw [flatten_flatten_map_map, pageBatches_flatten (by omega)]

/-- Every optional value produced by the indexed mapper is either `none` or
the successor-chain value `a0 + i`; the compacted result is then a sublist of
the corresponding interval.  (This is the shape of both per-page serial-number
assignments.) -/
theorem reduceOption_mapIdx_sublist_range' :
    ∀ (l : List α) (f : ℕ → α → Option ℕ) (a0 : ℕ),
      (∀ i b x, f i b = some x → x = a0 + i) →
      (l.mapIdx f).reduceOption.Sublist (List.range' a0 l.length) := by
  intro l
  induction l with
  | nil => intro f a0 _; simp [List.reduceOption_nil]
  | cons b t ih =>
    intro f a0 hf
    rw [List.mapIdx_cons, List.length_cons, List.range'_succ]
    cases hfb : f 0 b with
    | none =>
      rw [List.reduceOption_cons_of_none]
      exact (ih (fun i => f (i + 1)) (a0 + 1) fun i c x hx => by
        rw [hf (i + 1) c x hx]; omega).cons a0
    | some x =>
      rw [List.reduceOption_cons_of_some]
      have hx : x = a0 := by have := hf 0 b x hfb; omega
      rw [hx]
      exact (ih (fun i => f (i + 1)) (a0 + 1) fun i c x hx => by
        rw [hf (i + 1) c x hx]; omega).cons₂ a0

theorem map_mapIdx (l : List α) (f : ℕ → α → β) (g : β → γ) :
    (l.mapIdx f).map g = l.mapIdx fun i a => g (f i a) := by
  apply List.ext_getElem?
  intro i
  simp [Option.map_map, Function.comp_def]

theorem mapIdx_const_eq_range_map (l : List α) (g : ℕ → β) :
    (l.mapIdx fun i _ => g i) = (List.range l.length).map g := by
  apply List.ext_getElem?
  intro i
  by_cases h : i < l.length
  · rw [List.getElem?_mapIdx, List.getElem?_map, List.getElem?_range h,
      List.getElem?_eq_getElem h]
    rfl
  · rw [List.getElem?_mapIdx, List.getElem?_map,
      List.getElem?_eq_none (by simpa using h),
      List.getElem?_eq_none (by simpa using h)]
    rfl

/-- The serial numbers of one API page are exactly the interval of length the
item count starting right after the serials of the previous pages. -/
theorem map_serial_parseAPIResponse (fmtDate : String → String)
    (resp : APIResponse) (p rpp : ℕ) :
    (parseAPIResponse fmtDate resp p rpp).map (·.serialNumber) =
      List.range' ((p - 1) * rpp + 1) (selectInvoices resp).length := by
  unfold parseAPIResponse
  rw [map_mapIdx]
  rw [mapIdx_const_eq_range_map (g := fun i => (p - 1) * rpp + i + 1),
    List.range'_eq_map_range]
  refine List.map_congr_left fun i _ => ?_
  omega

/-- The serial numbers of one out-of-band page are a sublist of the interval
of the page (row indices of discarded invalid rows are skipped, not
renumbered). -/
theorem map_serial_extractDataFromDocument (rows : List Row) (p rpp : ℕ) :
    ((extractDataFromDocument rows p rpp).map (·.serialNumber)).Sublist
      (List.range' ((p - 1) * rpp + 1) rows.length) := by
  unfold extractDataFromDocument
  rw [← List.reduceOption_map, map_mapIdx]
  refine reduceOption_mapIdx_sublist_range' rows _ ((p - 1) * rpp + 1) ?_
  intro i b x hx
  dsimp only at hx
  split at hx
  · rw [Option.map_some', Option.some_inj] at hx
    subst hx
    show (p - 1) * rpp + i + 1 = (p - 1) * rpp + 1 + i
    omega
  · exact absurd hx (by simp)

theorem map_serial_fetchPageDataViaAPI (fmtDate : String → String)
    (o : FetchOutcome) (p rpp : ℕ) :
    ((fetchPageDataViaAPI fmtDate o p rpp).map (·.serialNumber)).Sublist
      (List.range' ((p - 1) * rpp + 1) (fetchItemCount o)) := by
  cases o with
  | networkError msg => simp [fetchPageDataViaAPI]
  | badJson => simp [fetchPageDataViaAPI]
  | response ok body =>
    cases ok with
    | false => simp [fetchPageDataViaAPI, fetchItemCount]
    | true =>
      rw [show fetchPageDataViaAPI fmtDate (.response true body) p rpp =
          parseAPIResponse fmtDate body p rpp from rfl,
        map_serial_parseAPIResponse]
      exact List.Sublist.refl _

theorem map_serial_loadPageInIframeResult (o : LoadPageOutcome) (p rpp : ℕ) :
    ((loadPageInIframeResult o p rpp).map (·.serialNumber)).Sublist
      (List.range' ((p - 1) * rpp + 1) (loadRowCount o)) := by
  cases o with
  | loaded rows => exact map_serial_extractDataFromDocument rows p rpp
  | failed => simp [loadPageInIframeResult]

theorem serial_cross_lt {p q x y cp rpp : ℕ} (hpq : p < q) (hp : 1 ≤ p)
    (hcnt : cp ≤ rpp) (hx : x < (p - 1) * rpp + 1 + cp)
    (hy : (q - 1) * rpp + 1 ≤ y) : x < y := by
  have h1 : x ≤ (p - 1) * rpp + cp := by
    rw [Nat.add_right_comm] at hx; exact Nat.lt_succ_iff.mp hx
  have h3 : (p - 1) * rpp + rpp = p * rpp := by
    rw [← Nat.succ_mul, Nat.succ_eq_add_one, Nat.sub_add_cancel hp]
  calc x ≤ (p - 1) * rpp + cp := h1
    _ ≤ (p - 1) * rpp + rpp := Nat.add_le_add_left hcnt _
    _ = p * rpp := h3
    _ < (q - 1) * rpp + 1 :=
      Nat.lt_succ_of_le (Nat.mul_le_mul_right rpp (by omega))
    _ ≤ y := hy

/-- Generic strict-increase result: when each page contributes serial numbers
inside its own interval (with page size bound `rpp`), the page-ordered
concatenation has strictly increasing serial numbers. -/
theorem serials_pairwise_flatten (n rpp : ℕ) (cnt : ℕ → ℕ)
    (pageData : ℕ → List InvoiceRecord)
    (hsub : ∀ p, ((pageData p).map (·.serialNumber)).Sublist
      (List.range' ((p - 1) * rpp + 1) (cnt p)))
    (hcnt : ∀ p, cnt p ≤ rpp) :
    ((((List.range' 1 n).map pageData).flatten).map (·.serialNumber)).Pairwise (· < ·) := by
  rw [List.map_flatten, List.map_map]
  rw [List.pairwise_flatten]
  constructor
  · intro l hl
    rw [List.mem_map] at hl
    obtain ⟨p, _, rfl⟩ := hl
    exact List.Pairwise.sublist (hsub p) (List.pairwise_lt_range' _ _)
  · rw [List.pairwise_map]
    refine List.Pairwise.imp_of_mem ?_ (List.pairwise_lt_range' 1 n)
    intro p q hpmem _ hpq x hx y hy
    have hp1 : 1 ≤ p := (List.mem_range'_1.mp hpmem).1
    have hxr := List.mem_range'_1.mp ((hsub p).subset hx)
    have hyr := List.mem_range'_1.mp ((hsub q).subset hy)
    exact serial_cross_lt hpq hp1 (hcnt p) hxr.2 hyr.1

theorem takeWhile_append_of_exists {p : α → Bool} :
    ∀ (xs ys : List α), (∃ x ∈ xs, p x = false) →
      (xs ++ ys).takeWhile p = xs.takeWhile p
  | [], _, h => by simp at h
  | a :: t, ys, h => by
    rw [List.cons_append, List.takeWhile_cons, List.takeWhile_cons]
    cases hpa : p a with
    | false => rfl
    | true =>
      obtain ⟨x, hx, hpx⟩ := h
      rcases List.mem_cons.mp hx with rfl | hxt
      · rw [hpa] at hpx; cases hpx
      · rw [takeWhile_append_of_exists t ys ⟨x, hxt, hpx⟩]

theorem takeWhile_append_of_all {p : α → Bool} :
    ∀ (xs ys : List α), (∀ x ∈ xs, p x = true) →
      (xs ++ ys).takeWhile p = xs ++ ys.takeWhile p
  | [], _, _ => by simp
  | a :: t, ys, h => by
    rw [List.cons_append, List.takeWhile_cons, h a (by simp),
      takeWhile_append_of_all t ys fun x hx => h x (List.mem_cons_of_mem a hx),
      List.cons_append]
    rfl

theorem apiIssueTrace_eq (n : ℕ) :
    apiIssueTrace n = (List.range' 1 n).map FetchEv.start ++ [FetchEv.awaitBatch] := by
  unfold apiIssueTrace
  rw [← List.map_flatten, apiBatches_flatten]

/-- On the API path no whole-batch await precedes the issue of any page fetch:
the fetches of every batch are all issued before the single await. -/
theorem awaitsBefore_api (n p : ℕ) (hp : p ∈ List.range' 1 n) :
    awaitsBefore (apiIssueTrace n) p = 0 := by
  unfold awaitsBefore
  rw [apiIssueTrace_eq,
    takeWhile_append_of_exists _ _
      ⟨FetchEv.start p, List.mem_map_of_mem _ hp, by simp⟩]
  rw [List.countP_eq_zero]
  intro e he
  have he2 := (List.takeWhile_sublist _).subset he
  rw [List.mem_map] at he2
  obtain ⟨q, _, rfl⟩ := he2
  simp

theorem batchedTrace_cons (b : List ℕ) (rest : List (List ℕ)) :
    batchedTrace (b :: rest) =
      (b.map FetchEv.start ++ [FetchEv.awaitBatch]) ++ batchedTrace rest := rfl

/-- In a trace that starts each batch and awaits it before the next batch,
exactly `k` whole-batch awaits precede the start of any page of batch `k`. -/
theorem awaitsBefore_batchedTrace :
    ∀ (batches : List (List ℕ)) (k : ℕ) (b : List ℕ) (p : ℕ),
      batches[k]? = some b → p ∈ b → batches.flatten.Nodup →
      awaitsBefore (batchedTrace batches) p = k
  | [], k, b, p, hk, _, _ => by simp at hk
  | b0 :: rest, 0, b, p, hk, hp, _ => by
    rw [List.getElem?_cons_zero, Option.some_inj] at hk
    subst hk
    unfold awaitsBefore
    rw [batchedTrace_cons, List.append_assoc,
      takeWhile_append_of_exists _ _
        ⟨FetchEv.start p, List.mem_map_of_mem _ hp, by simp⟩]
    rw [List.countP_eq_zero]
    intro e he
    have he2 := (List.takeWhile_sublist _).subset he
    rw [List.mem_map] at he2
    obtain ⟨q, _, rfl⟩ := he2
    simp
  | b0 :: rest, k + 1, b, p, hk, hp, hnd => by
    rw [List.getElem?_cons_succ] at hk
    have hpflat : p ∈ rest.flatten :=
      List.mem_flatten.mpr ⟨b, List.getElem?_mem hk, hp⟩
    have hpb0 : p ∉ b0 := by
      rw [List.flatten_cons, List.nodup_append] at hnd
      exact fun hmem => hnd.2.2 hmem hpflat
    have hall : ∀ x ∈ b0.map FetchEv.start ++ [FetchEv.awaitBatch],
        (fun e => decide (e ≠ FetchEv.start p)) x = true := by
      intro x hx
      rcases List.mem_append.mp hx with hx1 | hx2
      · rw [List.mem_map] at hx1
        obtain ⟨q, hq, rfl⟩ := hx1
        simp only [decide_eq_true_eq, ne_eq, FetchEv.start.injEq]
        exact fun hqp => hpb0 (hqp ▸ hq)
      · rw [List.mem_singleton] at hx2
        subst hx2
        simp
    unfold awaitsBefore
    rw [batchedTrace_cons, takeWhile_append_of_all _ _ hall, List.countP_append]
    have ih := awaitsBefore_batchedTrace rest k b p hk hp
      (by rw [List.flatten_cons, List.nodup_append] at hnd; exact hnd.2.1)
    unfold awaitsBefore at ih
    rw [ih]
    have h0 : (b0.map FetchEv.start ++ [FetchEv.awaitBatch]).countP
        (fun e => decide (e = FetchEv.awaitBatch)) = 1 := by
      rw [List.countP_append, List.countP_map,
        List.countP_eq_zero.mpr fun q _ => by simp]
      rfl
    rw [h0]
    omega

theorem iframeStep_closes (page rpp : ℕ) (ev : LoadEv) :
    (iframeStep page rpp iframeInit ev).attached = false ∧
      (iframeStep page rpp iframeInit ev).timerActive = false ∧
      (iframeStep page rpp iframeInit ev).removals = 1 ∧
      (iframeStep page rpp iframeInit ev).result.isSome = true := by
  cases ev <;>
    simp [iframeStep, iframeInit, resolveIframe, removeIframe, clearTimer]

theorem admissible_of_closed (page rpp : ℕ) (st : IframeState)
    (ha : st.attached = false) (ht : st.timerActive = false) :
    ∀ evs, admissibleEvents page rpp st evs = true → evs = [] := by
  intro evs hevs
  cases evs with
  | nil => rfl
  | cons ev rest =>
    exfalso
    rw [admissibleEvents, Bool.and_eq_true] at hevs
    cases ev <;> simp [canFire, ha, ht] at hevs

/-- The progress reports of the DOM-fallback run, in emission order. -/
theorem loadPagesInParallel_reports (st : ScriptState) (out : ℕ → LoadPageOutcome)
    (n : ℕ) :
    (loadPagesInParallel st out (List.range' 1 n)).2 =
      (List.range (numBatches n 5)).map fun k =>
        { currentPage := min (k * 5 + 5) n
          totalPages := n
          message := "تم تحميل " ++ toString (min (k * 5 + 5) n) ++ " من " ++
            toString n ++ " صفحة"
          percentage := (((min (k * 5 + 5) n : ℕ) : ℚ) / n) * 100 } := by
  unfold loadPagesInParallel
  simp [List.length_range']

theorem percentage_eq_100_iff {m n : ℕ} (hn : 0 < n) :
    ((m : ℚ) / n) * 100 = 100 ↔ m = n := by
  have hn0 : (n : ℚ) ≠ 0 := Nat.cast_ne_zero.mpr (by omega)
  rw [div_mul_eq_mul_div, div_eq_iff hn0]
  constructor
  · intro h
    have h2 : (m : ℚ) * 100 = (n : ℚ) * 100 := by rw [h]; ring
    exact Nat.cast_inj.mp (mul_right_cancel₀ (by norm_num) h2)
  · intro h
    rw [h]; ring

theorem percentage_mono {a b n : ℕ} (hab : a ≤ b) :
    ((a : ℚ) / n) * 100 ≤ ((b : ℚ) / n) * 100 := by
  rcases Nat.eq_zero_or_pos n with rfl | hn
  · simp
  · have hn0 : (0 : ℚ) < n := by exact_mod_cast hn
    refine mul_le_mul_of_nonneg_right ?_ (by norm_num)
    exact div_le_div_of_nonneg_right (by exact_mod_cast hab) hn0.le

theorem digitChar_isDigit {m : ℕ} (h : m < 10) : (Nat.digitChar m).isDigit = true := by
  interval_cases m <;> decide

theorem twoFracDigits_of_data {s : String} {g : List Char} {c1 c2 : Char}
    (h1 : c1.isDigit = true) (h2 : c2.isDigit = true)
    (hs : s.data = g ++ ['.', c1, c2]) : twoFracDigits s = true := by
  unfold twoFracDigits
  rw [show s.toList = s.data from rfl, hs, List.reverse_append]
  simp [h1, h2]

theorem toLocaleTwoDigitsNN_data (sc den : ℕ) :
    (toLocaleTwoDigitsNN sc den).data =
      (groupInt (roundCents sc den / 100)).data ++
        ['.', Nat.digitChar (roundCents sc den % 100 / 10),
          Nat.digitChar (roundCents sc den % 10)] := by
  unfold toLocaleTwoDigitsNN
  rw [String.data_append, String.data_append, List.append_assoc]
  rfl

theorem twoFracDigits_toLocaleTwoDigits (d : Dec) :
    twoFracDigits (toLocaleTwoDigits d) = true := by
  have hd1 : (Nat.digitChar (roundCents d.sc d.den % 100 / 10)).isDigit = true :=
    digitChar_isDigit (by omega)
  have hd2 : (Nat.digitChar (roundCents d.sc d.den % 10)).isDigit = true :=
    digitChar_isDigit (by omega)
  unfold toLocaleTwoDigits
  cases hneg : d.neg with
  | false =>
    exact twoFracDigits_of_data hd1 hd2 (toLocaleTwoDigitsNN_data d.sc d.den)
  | true =>
    refine twoFracDigits_of_data hd1 hd2
      (g := '-' :: (groupInt (roundCents d.sc d.den / 100)).data) ?_
    rw [if_pos rfl, String.data_append, toLocaleTwoDigitsNN_data]
    rfl

/-- C8 counterexample: a zero amount supplied as the non-empty string "0"
passes the falsy guard and renders as "0.00", and an unparseable non-empty
string renders as "NaN" — refuting the claim that missing, zero or invalid
amounts always render as the empty string and that "0.00" is never
produced. -/
theorem C8_counterexample :
    formatAmount (.str "0") = "0.00" ∧ formatAmount (.str "abc") = "NaN" := by
  exact ⟨by decide, by decide⟩

/-- C8 amended: a parseable decimal amount is rendered with the en-US
grouping convention and exactly two fraction digits (for example "1234.5"
renders as "1,234.50"); the falsy amounts — the number 0, null/absent, and
the empty string — render as the empty string; but zero or invalid amounts
arriving as non-empty strings pass the falsy guard: an unparseable non-empty
string renders as "NaN" (and, per the counterexample, the string "0" renders
as "0.00"). -/
theorem C8_formatAmount :
    formatAmount (.num {}) = "" ∧
    formatAmount .null = "" ∧
    formatAmount (.str "") = "" ∧
    formatAmount (.str "1234.5") = "1,234.50" ∧
    (∀ s : String, s ≠ "" → jsParseFloat s = none → formatAmount (.str s) = "NaN") ∧
    (∀ v : JSVal, truthy v = true →
      ∀ d, parseFloatVal v = some d → twoFracDigits (formatAmount v) = true) := by
  refine ⟨by decide, by decide, by decide, by decide, ?_, ?_⟩
  · intro s hs hparse
    unfold formatAmount
    rw [show truthy (.str s) = true by
      simpa [truthy] using hs]
    show (match parseFloatVal (.str s) with
      | none => "NaN"
      | some d => toLocaleTwoDigits d) = "NaN"
    rw [show parseFloatVal (.str s) = jsParseFloat s from rfl, hparse]
  · intro v hv d hd
    unfold formatAmount
    rw [hv]
    show twoFracDigits (match parseFloatVal v with
      | none => "NaN"
      | some d => toLocaleTwoDigits d) = true
    rw [hd]
    exact twoFracDigits_toLocaleTwoDigits d

/-- C8 witness: the general clauses of the amended theorem applied at the
concrete inputs "abc" (unparseable) and the parseable "1234.5". -/
theorem C8_witness :
    formatAmount (.str "abc") = "NaN" ∧
      twoFracDigits (formatAmount (.str "1234.5")) = true :=
  ⟨C8_formatAmount.2.2.2.2.1 "abc" (by decide) (by decide),
   C8_formatAmount.2.2.2.2.2 (.str "1234.5") (by decide)
     { sc := 12345, den := 10 } (by decide)⟩

/-- C6: fetchPage never raises: the embedding is a total function, and every
failure outcome — a rejected fetch, an unparseable JSON body, and in
particular a non-2xx (ok = false) response — yields the empty sequence for
that page, while an ok response yields the parsed records; consequently the
surrounding batched API run always completes with success regardless of
per-page outcomes (no page failure aborts its batch). -/
theorem C6_fetchPage_never_raises :
    ∀ (fmtDate : String → String) (page rpp : ℕ) (msg : String)
      (body : APIResponse) (st : ScriptState) (outcome : ℕ → FetchOutcome),
      fetchPageDataViaAPI fmtDate (.networkError msg) page rpp = [] ∧
      fetchPageDataViaAPI fmtDate .badJson page rpp = [] ∧
      fetchPageDataViaAPI fmtDate (.response false body) page rpp = [] ∧
      fetchPageDataViaAPI fmtDate (.response true body) page rpp =
        parseAPIResponse fmtDate body page rpp ∧
      (getAllPagesViaAPI fmtDate st outcome).success = true :=
  fun _ _ _ _ _ _ _ => ⟨rfl, rfl, rfl, rfl, rfl⟩

/-- C5: when the inner run of `getAllPagesDataFast` escapes with an uncaught
failure, the returned result has success = false, carries the error message,
and contains exactly the `allPagesData` buffer accumulated before the failure
(the buffer is reset on entry and the inner paths accumulate into local
variables, so it is what the failure path returns); and the
`isProcessingAllPages` flag is cleared on both the normal and the failing
exit. -/
theorem C5_failure_result_and_flag (st : ScriptState)
    (run : ScriptState → Except String AcquisitionResult) :
    ((getAllPagesDataFastE st run).2.isProcessingAllPages = false) ∧
    (∀ msg, run { st with isProcessingAllPages := true, allPagesData := [] } =
        .error msg →
      (getAllPagesDataFastE st run).1.success = false ∧
      (getAllPagesDataFastE st run).1.error = some msg ∧
      (getAllPagesDataFastE st run).1.data =
        ({ st with isProcessingAllPages := true,
                   allPagesData := [] } : ScriptState).allPagesData) := by
  constructor
  · simp only [getAllPagesDataFastE]
    cases run { st with isProcessingAllPages := true, allPagesData := [] } <;> rfl
  · intro msg hrun
    simp only [getAllPagesDataFastE]
    rw [hrun]
    exact ⟨rfl, rfl, rfl⟩

/-- C7: the iframe loader removes its invisible browsing context on every
admissible exit path — load with successful extraction, load with a throwing
extraction, error event, timeout — and exactly one teardown executes per
load, because the first fired event detaches the iframe and disarms the
timer, after which no further event is admissible; the promise is settled on
every path, and when the first event is the timeout firing, the resolution
value is the empty sequence. -/
theorem C7_iframe_cleanup (page rpp : ℕ) (evs : List LoadEv)
    (hadm : admissibleEvents page rpp iframeInit evs = true) (hne : evs ≠ []) :
    (iframeRun page rpp iframeInit evs).removals = 1 ∧
      (iframeRun page rpp iframeInit evs).attached = false ∧
      (iframeRun page rpp iframeInit evs).result.isSome = true ∧
      (∀ rest, evs = LoadEv.timeoutFire :: rest →
        (iframeRun page rpp iframeInit evs).result = some []) := by
  cases evs with
  | nil => exact absurd rfl hne
  | cons ev rest =>
    rw [admissibleEvents, Bool.and_eq_true] at hadm
    have hclosed := iframeStep_closes page rpp ev
    have hrest : rest = [] :=
      admissible_of_closed page rpp _ hclosed.1 hclosed.2.1 rest hadm.2
    subst hrest
    refine ⟨hclosed.2.2.1, hclosed.1, hclosed.2.2.2, ?_⟩
    intro rest2 heq
    injection heq with h1 h2
    subst h1
    rfl

/-- C7 witness: a load whose only admissible event is the timeout firing:
one teardown, iframe detached, promise resolved with the empty sequence. -/
theorem C7_witness :
    admissibleEvents 1 50 iframeInit [LoadEv.timeoutFire] = true ∧
      (iframeRun 1 50 iframeInit [LoadEv.timeoutFire]).removals = 1 ∧
      (iframeRun 1 50 iframeInit [LoadEv.timeoutFire]).attached = false ∧
      (iframeRun 1 50 iframeInit [LoadEv.timeoutFire]).result = some [] := by
  have h := C7_iframe_cleanup 1 50 [LoadEv.timeoutFire] (by decide) (by decide)
  exact ⟨by decide, h.1, h.2.1, h.2.2.2 [] rfl⟩

/-- C1 counterexample: the API path applies no validity filter: a raw item
with no identifiers and no amounts yields a record whose electronicNumber,
internalNumber and totalAmount are all empty inside the sequence returned for
its page. -/
theorem C1_counterexample :
    ((parseAPIResponse id { items := some [{}] } 1 50).map fun r =>
        (r.electronicNumber, r.internalNumber, r.totalAmount)) = [("", "", "")] ∧
      ((parseAPIResponse id { items := some [{}] } 1 50).any fun r =>
        !isValidInvoiceData r) = true := by
  exact ⟨by decide, by decide⟩

/-- C1 amended: the visible-page scan and the DOM-fallback path discard
invalid records, so every record they return has at least one of
electronicNumber, internalNumber, totalAmount non-empty; the API path of
acquireAll applies no validity filter (see the counterexample). -/
theorem C1_validity_scan_and_dom :
    (∀ (rows : List Row) (page rpp : ℕ),
        ∀ r ∈ extractDataFromDocument rows page rpp, isValidInvoiceData r = true) ∧
      (∀ visibleRows : List Row,
        ∀ r ∈ scanForInvoices visibleRows, isValidInvoiceData r = true) := by
  constructor
  · intro rows page rpp r hr
    unfold extractDataFromDocument at hr
    rw [List.reduceOption_mem_iff, List.mem_iff_getElem?] at hr
    obtain ⟨i, hi⟩ := hr
    rw [List.getElem?_mapIdx] at hi
    cases hrow : rows[i]? with
    | none => rw [hrow] at hi; cases hi
    | some row =>
      rw [hrow, Option.map_some'] at hi
      rw [Option.some_inj] at hi
      dsimp only at hi
      split at hi
      · rw [Option.some_inj] at hi
        subst hi
        assumption
      · cases hi
  · intro visibleRows r hr
    unfold scanForInvoices at hr
    rw [List.reduceOption_mem_iff, List.mem_iff_getElem?] at hr
    obtain ⟨i, hi⟩ := hr
    rw [List.getElem?_mapIdx] at hi
    cases hrow : visibleRows[i]? with
    | none => rw [hrow] at hi; cases hi
    | some row =>
      rw [hrow, Option.map_some'] at hi
      rw [Option.some_inj] at hi
      dsimp only at hi
      split at hi
      · rw [Option.some_inj] at hi
        subst hi
        assumption
      · cases hi

/-- C1 witness: the amended theorem applied to the one record extracted from
a concrete pair of rows of which only the second is valid. -/
theorem C1_witness :
    isValidInvoiceData
      ((extractDataFromDocument [{}, { uuidLinkText := some "EL-1" }] 1 50).getD 0 {}) =
      true := by
  refine C1_validity_scan_and_dom.1 [{}, { uuidLinkText := some "EL-1" }] 1 50 _ ?_
  decide

/-- C10 counterexample: an item whose electronicNumber comes from the id
fallback (uuid absent) produces a record with a non-empty electronicNumber
and an empty externalLink, refuting that the link is produced exactly when
the electronicNumber is present. -/
theorem C10_counterexample :
    ((parseAPIResponse id { items := some [{ id := "ABC-123" }] } 1 50).map
        fun r => (r.electronicNumber, r.externalLink)) = [("ABC-123", "")] := by
  decide

theorem length_parseAPIResponse (fmtDate : String → String) (resp : APIResponse)
    (page rpp : ℕ) :
    (parseAPIResponse fmtDate resp page rpp).length = (selectInvoices resp).length := by
  unfold parseAPIResponse
  exact List.length_mapIdx

/-- C10 amended: externalLink is the fixed base path concatenated with the
item uuid twice (once whole, once truncated to its first 26 characters) and
it is produced exactly when the uuid of the raw item is non-empty; since
electronicNumber falls back to the id property when the uuid is absent, a
record can carry a non-empty electronicNumber together with an empty
externalLink. -/
theorem C10_externalLink :
    (∀ item : APIItem, generateExternalLink item ≠ "" ↔ item.uuid ≠ "") ∧
      (∀ item : APIItem, item.uuid ≠ "" →
        generateExternalLink item =
          "https://invoicing.eta.gov.eg/documents/" ++ item.uuid ++ "/share/" ++
            item.uuid.take 26) ∧
      (∀ (fmtDate : String → String) (resp : APIResponse) (page rpp i : ℕ),
        ((parseAPIResponse fmtDate resp page rpp)[i]?).map (·.externalLink) =
          ((selectInvoices resp)[i]?).map generateExternalLink) := by
  refine ⟨?_, ?_, ?_⟩
  · intro item
    unfold generateExternalLink
    by_cases h : item.uuid = ""
    · rw [if_pos h]
      simp [h]
    · rw [if_neg h]
      constructor
      · intro _; exact h
      · intro _ habs
        have hlen := congrArg String.length habs
        rw [String.length_append, String.length_append, String.length_append] at hlen
        have h39 : ("https://invoicing.eta.gov.eg/documents/" : String).length = 39 := by
          decide
        have h7 : ("/share/" : String).length = 7 := by decide
        have h0 : ("" : String).length = 0 := by decide
        omega
  · intro item h
    unfold generateExternalLink
    rw [if_neg h]
  · intro fmtDate resp page rpp i
    unfold parseAPIResponse
    rw [List.getElem?_mapIdx]
    cases (selectInvoices resp)[i]? <;> rfl

/-- C10 witness: the amended clauses applied to an item with a long uuid. -/
theorem C10_witness :
    generateExternalLink { uuid := "M1M2M3M4M5M6M7M8M9M0AAAABBBBCCCC" } =
      "https://invoicing.eta.gov.eg/documents/" ++ "M1M2M3M4M5M6M7M8M9M0AAAABBBBCCCC" ++
        "/share/" ++ ("M1M2M3M4M5M6M7M8M9M0AAAABBBBCCCC" : String).take 26 ∧
      (generateExternalLink { uuid := "M1M2M3M4M5M6M7M8M9M0AAAABBBBCCCC" } ≠ "" ↔
        ("M1M2M3M4M5M6M7M8M9M0AAAABBBBCCCC" : String) ≠ "") :=
  ⟨C10_externalLink.2.1 { uuid := "M1M2M3M4M5M6M7M8M9M0AAAABBBBCCCC" } (by decide),
   C10_externalLink.1 { uuid := "M1M2M3M4M5M6M7M8M9M0AAAABBBBCCCC" }⟩

/-- C2: serialNumber is (pageNumber − 1) × resultsPerPage + positionWithinPage
(1-based source position: item index on the API path, grid-row index on the
DOM path, where discarded invalid rows are skipped, not renumbered), and over
a whole run — provided no page carries more raw entries than resultsPerPage,
which is the page size the portal serves — the serial numbers of the returned
sequence are strictly increasing across page boundaries and unique. -/
theorem C2_serialNumbers :
    (∀ (fmtDate : String → String) (resp : APIResponse) (page rpp i : ℕ)
        (h : i < (parseAPIResponse fmtDate resp page rpp).length),
        ((parseAPIResponse fmtDate resp page rpp).get ⟨i, h⟩).serialNumber =
          (page - 1) * rpp + i + 1) ∧
      (∀ (rows : List Row) (page rpp : ℕ),
        ((extractDataFromDocument rows page rpp).map (·.serialNumber)).Sublist
          (List.range' ((page - 1) * rpp + 1) rows.length)) ∧
      (∀ (fmtDate : String → String) (st : ScriptState)
        (outcome : ℕ → FetchOutcome),
        (∀ p, fetchItemCount (outcome p) ≤ st.resultsPerPage) →
        ((getAllPagesViaAPI fmtDate st outcome).data.map
          (·.serialNumber)).Pairwise (· < ·) ∧
        ((getAllPagesViaAPI fmtDate st outcome).data.map (·.serialNumber)).Nodup) ∧
      (∀ (st : ScriptState) (out : ℕ → LoadPageOutcome),
        (∀ p, loadRowCount (out p) ≤ st.resultsPerPage) →
        ((getAllPagesViaOptimizedDOM st out).1.data.map
          (·.serialNumber)).Pairwise (· < ·) ∧
        ((getAllPagesViaOptimizedDOM st out).1.data.map (·.serialNumber)).Nodup) := by
  refine ⟨?_, ?_, ?_, ?_⟩
  · intro fmtDate resp page rpp i h
    simp only [parseAPIResponse, List.get_eq_getElem, List.getElem_mapIdx]
  · exact map_serial_extractDataFromDocument
  · intro fmtDate st outcome hcnt
    have hp : ((getAllPagesViaAPI fmtDate st outcome).data.map
        (·.serialNumber)).Pairwise (· < ·) := by
      rw [getAllPagesViaAPI_data]
      exact serials_pairwise_flatten st.totalPages st.resultsPerPage
        (fun p => fetchItemCount (outcome p)) _
        (fun p => map_serial_fetchPageDataViaAPI fmtDate (outcome p) p st.resultsPerPage)
        hcnt
    exact ⟨hp, hp.imp Nat.ne_of_lt⟩
  · intro st out hcnt
    have hp : ((getAllPagesViaOptimizedDOM st out).1.data.map
        (·.serialNumber)).Pairwise (· < ·) := by
      unfold getAllPagesViaOptimizedDOM generateAllPageUrls
      rw [loadPagesInParallel_data]
      exact serials_pairwise_flatten st.totalPages st.resultsPerPage
        (fun p => loadRowCount (out p)) _
        (fun p => map_serial_loadPageInIframeResult (out p) p st.resultsPerPage)
        hcnt
    exact ⟨hp, hp.imp Nat.ne_of_lt⟩

/-- C2 witness: the run-level clauses at a concrete two-page state with one
item per page, and the formula clause at page 2, index 0 (serial 51). -/
theorem C2_witness :
    (((parseAPIResponse id { items := some [{ uuid := "A" }] } 2 50).get
        ⟨0, by decide⟩).serialNumber = 51) ∧
      ((getAllPagesViaAPI id { totalPages := 2, totalCount := 2 } fun _ =>
          .response true { items := some [{ uuid := "A" }] }).data.map
        (·.serialNumber)).Pairwise (· < ·) ∧
      ((getAllPagesViaOptimizedDOM { totalPages := 2, totalCount := 2 } fun _ =>
          .loaded [{ uuidLinkText := some "B" }]).1.data.map
        (·.serialNumber)).Nodup := by
  refine ⟨?_, ?_, ?_⟩
  · have h := C2_serialNumbers.1 id { items := some [{ uuid := "A" }] } 2 50 0
      (by decide)
    simpa using h
  · exact (C2_serialNumbers.2.2.1 id { totalPages := 2, totalCount := 2 }
      (fun _ => .response true { items := some [{ uuid := "A" }] })
      fun _ => by
        show fetchItemCount (.response true { items := some [{ uuid := "A" }] }) ≤
          ({ totalPages := 2, totalCount := 2 } : ScriptState).resultsPerPage
        decide).1
  · exact (C2_serialNumbers.2.2.2 { totalPages := 2, totalCount := 2 }
      (fun _ => .loaded [{ uuidLinkText := some "B" }])
      fun _ => by
        show loadRowCount (.loaded [{ uuidLinkText := some "B" }]) ≤
          ({ totalPages := 2, totalCount := 2 } : ScriptState).resultsPerPage
        decide).2

/-- C3 counterexample: getAllPagesDataFast does not re-run the pagination
inspection.  With a stale state of totalPages = 1 while the rendered document
now reports 120 results (so a refreshed inspection yields totalPages = 3),
the run fetches only page 1 and returns 1 record; the same run started from
the refreshed state returns 3 — the run is governed by the stale stored
values, not by values refreshed at the start of the call. -/
theorem C3_counterexample :
    ((extractPaginationInfo
        { totalCount := 50, totalPages := 1,
          apiEndpoint := some "https://invoicing.eta.gov.eg/api/v1/documents",
          hasAuthHeaders := true }
        { resultsCount := some 120 }).totalPages = 3) ∧
      ((getAllPagesDataFast id
          { totalCount := 50, totalPages := 1,
            apiEndpoint := some "https://invoicing.eta.gov.eg/api/v1/documents",
            hasAuthHeaders := true }
          (fun _ => .response true { items := some [{ uuid := "A" }] })
          fun _ => .failed).1.data.length = 1) ∧
      ((getAllPagesDataFast id
          (extractPaginationInfo
            { totalCount := 50, totalPages := 1,
              apiEndpoint := some "https://invoicing.eta.gov.eg/api/v1/documents",
              hasAuthHeaders := true }
            { resultsCount := some 120 })
          (fun _ => .response true { items := some [{ uuid := "A" }] })
          fun _ => .failed).1.data.length = 3) := by
  refine ⟨by decide, by decide, by decide⟩

/-- C3 amended: acquireAll does not re-inspect pagination; the run is
governed by the totalCount and totalPages already stored on the instance
(set when extractPaginationInfo last ran, at page-scan time): both inner
paths fetch exactly pages 1 to the stored totalPages.  extractPaginationInfo
itself computes totalPages as the ceiling of totalCount / resultsPerPage with
the fixed page size 50 — totalCount = 120 gives totalPages = 3. -/
theorem C3_pagination_refresh :
    (∀ (st : ScriptState) (doc : PageDoc),
        (extractPaginationInfo st doc).resultsPerPage = 50 ∧
        (extractPaginationInfo st doc).totalCount = extractTotalCount doc ∧
        extractTotalCount doc ≤ 50 * (extractPaginationInfo st doc).totalPages ∧
        50 * (extractPaginationInfo st doc).totalPages < extractTotalCount doc + 50) ∧
      ((extractPaginationInfo {} { resultsCount := some 120 }).totalPages = 3) ∧
      (∀ (fmtDate : String → String) (st : ScriptState)
        (outcome : ℕ → FetchOutcome),
        (getAllPagesViaAPI fmtDate st outcome).data =
          ((List.range' 1 st.totalPages).map fun p =>
            fetchPageDataViaAPI fmtDate (outcome p) p st.resultsPerPage).flatten) ∧
      (∀ (st : ScriptState) (out : ℕ → LoadPageOutcome),
        (getAllPagesViaOptimizedDOM st out).1.data =
          ((List.range' 1 st.totalPages).map fun p =>
            loadPageInIframeResult (out p) p st.resultsPerPage).flatten) := by
  refine ⟨?_, by decide, getAllPagesViaAPI_data, ?_⟩
  · intro st doc
    refine ⟨rfl, rfl, ?_, ?_⟩ <;>
      (show _; unfold extractPaginationInfo; dsimp only; omega)
  · intro st out
    unfold getAllPagesViaOptimizedDOM generateAllPageUrls
    exact loadPagesInParallel_data st out st.totalPages

/-- C4 counterexample: with 11 pages the API path has two batches, [1..10]
and [11]; the claim requires the whole first batch to be awaited before any
fetch of the second batch starts, yet no batch await precedes the issue of
the page 11 fetch — all fetches are issued up front. -/
theorem C4_counterexample :
    (apiBatches 11 10)[1]? = some [11] ∧
      awaitsBefore (apiIssueTrace 11) 11 = 0 := by
  exact ⟨by decide, by decide⟩

/-- C4 amended: on the API path the pages are grouped in batches of 10 for
result collection only: the fetch of every page of every batch is issued
before the single await (no batch await precedes any fetch).  The
DOM-fallback path does await each batch of 5 before starting the next:
exactly k batch awaits precede the start of any page of batch k.  On both
paths the final data is the concatenation of the per-page results in page
order. -/
theorem C4_batching :
    (∀ n p, p ∈ List.range' 1 n → awaitsBefore (apiIssueTrace n) p = 0) ∧
      (∀ n k (b : List ℕ) p, (domBatches (List.range' 1 n) 5)[k]? = some b →
        p ∈ b → awaitsBefore (domIssueTrace n) p = k) ∧
      (∀ (fmtDate : String → String) (st : ScriptState)
        (outcome : ℕ → FetchOutcome),
        (getAllPagesViaAPI fmtDate st outcome).data =
          ((List.range' 1 st.totalPages).map fun p =>
            fetchPageDataViaAPI fmtDate (outcome p) p st.resultsPerPage).flatten) ∧
      (∀ (st : ScriptState) (out : ℕ → LoadPageOutcome) (urls : List ℕ),
        (loadPagesInParallel st out urls).1.data =
          ((List.range (numBatches urls.length 5)).map fun k =>
            ((urls.drop (k * 5)).take 5).mapIdx fun index url =>
              loadPageInIframeResult (out url) (k * 5 + index + 1)
                st.resultsPerPage).flatten.flatten ∧
        (getAllPagesViaOptimizedDOM st out).1.data =
          ((List.range' 1 st.totalPages).map fun p =>
            loadPageInIframeResult (out p) p st.resultsPerPage).flatten) ∧
      (∀ n b, b ∈ apiBatches n 10 → b.length ≤ 10 ∧ b ≠ []) ∧
      (∀ n (b : List ℕ), b ∈ domBatches (List.range' 1 n) 5 →
        b.length ≤ 5 ∧ b ≠ []) := by
  refine ⟨awaitsBefore_api, ?_, getAllPagesViaAPI_data, ?_, ?_, ?_⟩
  · intro n k b p hk hp
    refine awaitsBefore_batchedTrace (domBatches (List.range' 1 n) 5) k b p hk hp ?_
    rw [domBatches_flatten]
    exact List.nodup_range' 1 n
  · intro st out urls
    refine ⟨rfl, ?_⟩
    unfold getAllPagesViaOptimizedDOM generateAllPageUrls
    exact loadPagesInParallel_data st out st.totalPages
  · intro n b hb
    rw [apiBatches_eq_pageBatches] at hb
    unfold pageBatches at hb
    rw [List.mem_map] at hb
    obtain ⟨k, hk, rfl⟩ := hb
    rw [List.mem_range] at hk
    constructor
    · rw [List.length_range']
      omega
    · rw [Ne, List.range'_eq_nil]
      unfold numBatches at hk
      rcases Nat.eq_zero_or_pos n with rfl | hn
      · simp at hk
      · rw [if_neg (by omega)] at hk
        omega
  · intro n b hb
    rw [domBatches_eq_pageBatches] at hb
    unfold pageBatches at hb
    rw [List.mem_map] at hb
    obtain ⟨k, hk, rfl⟩ := hb
    rw [List.mem_range] at hk
    constructor
    · rw [List.length_range']
      omega
    · rw [Ne, List.range'_eq_nil]
      unfold numBatches at hk
      rcases Nat.eq_zero_or_pos n with rfl | hn
      · simp at hk
      · rw [if_neg (by omega)] at hk
        omega

/-- C4 witness: with 11 pages, page 11 (the only page of the second API
batch) has no await before its fetch is issued; with 7 urls on the DOM path,
page 6 (first page of the second batch) starts after exactly one batch
await. -/
theorem C4_witness :
    awaitsBefore (apiIssueTrace 11) 11 = 0 ∧
      awaitsBefore (domIssueTrace 7) 6 = 1 :=
  ⟨C4_batching.1 11 11 (by decide),
   C4_batching.2.1 7 1 [6, 7] 6 (by decide) (by decide)⟩

/-- The number of pages whose loads have completed after the first `j`
batches of the DOM-fallback run. -/
theorem completedPages_eq (n : ℕ) :
    ∀ j, j ≤ numBatches n 5 →
      (((pageBatches n 5).take j).flatten).length = min (5 * j) n := by
  intro j
  induction j with
  | zero => intro _; simp
  | succ j ih =>
    intro hj
    have hn : 0 < n := by
      by_contra h
      unfold numBatches at hj
      rw [if_pos (by omega)] at hj
      omega
    have hnb : numBatches n 5 = (n - 1) / 5 + 1 := by
      unfold numBatches
      rw [if_neg (by omega)]
    rw [List.take_succ, List.flatten_append, List.length_append,
      ih (by omega)]
    have hget : (pageBatches n 5)[j]? =
        some (List.range' (j * 5 + 1) (min 5 (n - j * 5))) := by
      unfold pageBatches
      rw [List.getElem?_map, List.getElem?_range (by omega)]
      rfl
    rw [hget]
    simp only [Option.toList_some, List.flatten_cons, List.flatten_nil,
      List.append_nil, List.length_range']
    omega

/-- C9: the DOM-fallback run emits one progress value per batch; each value
reports percentage = (pages completed so far / totalPages) × 100, where the
pages completed after batch k are exactly the flattened first k + 1 batches;
the emitted percentages are monotonically non-decreasing, and a value of
exactly 100 is emitted precisely by the final batch. -/
theorem C9_progress (st : ScriptState) (out : ℕ → LoadPageOutcome)
    (hn : 0 < st.totalPages) :
    ((getAllPagesViaOptimizedDOM st out).2.length = numBatches st.totalPages 5) ∧
      (∀ k (h : k < (getAllPagesViaOptimizedDOM st out).2.length),
        ((getAllPagesViaOptimizedDOM st out).2.get ⟨k, h⟩).percentage =
          ((((((domBatches (List.range' 1 st.totalPages) 5).take (k + 1)).flatten).length :
            ℕ) : ℚ) / st.totalPages) * 100 ∧
        ((getAllPagesViaOptimizedDOM st out).2.get ⟨k, h⟩).totalPages =
          st.totalPages) ∧
      (((getAllPagesViaOptimizedDOM st out).2.map (·.percentage)).Pairwise (· ≤ ·)) ∧
      (∀ k (h : k < (getAllPagesViaOptimizedDOM st out).2.length),
        (((getAllPagesViaOptimizedDOM st out).2.get ⟨k, h⟩).percentage = 100 ↔
          k = (getAllPagesViaOptimizedDOM st out).2.length - 1)) := by
  have hreps : (getAllPagesViaOptimizedDOM st out).2 =
      (List.range (numBatches st.totalPages 5)).map fun k =>
        { currentPage := min (k * 5 + 5) st.totalPages
          totalPages := st.totalPages
          message := "تم تحميل " ++ toString (min (k * 5 + 5) st.totalPages) ++
            " من " ++ toString st.totalPages ++ " صفحة"
          percentage := (((min (k * 5 + 5) st.totalPages : ℕ) : ℚ) /
            st.totalPages) * 100 } := by
    unfold getAllPagesViaOptimizedDOM generateAllPageUrls
    exact loadPagesInParallel_reports st out st.totalPages
  have hnb : numBatches st.totalPages 5 = (st.totalPages - 1) / 5 + 1 := by
    unfold numBatches
    rw [if_neg (by omega)]
  have hlen : (getAllPagesViaOptimizedDOM st out).2.length =
      numBatches st.totalPages 5 := by
    rw [hreps, List.length_map, List.length_range]
  refine ⟨hlen, ?_, ?_, ?_⟩
  · intro k h
    have hk : k < numBatches st.totalPages 5 := hlen ▸ h
    have hget : (getAllPagesViaOptimizedDOM st out).2.get ⟨k, h⟩ =
        { currentPage := min (k * 5 + 5) st.totalPages
          totalPages := st.totalPages
          message := "تم تحميل " ++ toString (min (k * 5 + 5) st.totalPages) ++
            " من " ++ toString st.totalPages ++ " صفحة"
          percentage := (((min (k * 5 + 5) st.totalPages : ℕ) : ℚ) /
            st.totalPages) * 100 } := by
      rw [List.get_eq_getElem]
      conv in (getAllPagesViaOptimizedDOM st out).2 => rw [hreps]
      rw [List.getElem_map, List.getElem_range]
    rw [hget, domBatches_eq_pageBatches, completedPages_eq _ (k + 1) (by omega)]
    refine ⟨?_, rfl⟩
    show ((min (k * 5 + 5) st.totalPages : ℕ) : ℚ) / st.totalPages * 100 = _
    rw [show min (5 * (k + 1)) st.totalPages = min (k * 5 + 5) st.totalPages by omega]
  · rw [hreps, List.map_map, List.pairwise_map]
    refine (List.pairwise_lt_range _).imp ?_
    intro a b hab
    show ((min (a * 5 + 5) st.totalPages : ℕ) : ℚ) / st.totalPages * 100 ≤
      ((min (b * 5 + 5) st.totalPages : ℕ) : ℚ) / st.totalPages * 100
    exact percentage_mono (by omega)
  · intro k h
    have hk : k < numBatches st.totalPages 5 := hlen ▸ h
    have hget : ((getAllPagesViaOptimizedDOM st out).2.get ⟨k, h⟩).percentage =
        ((min (k * 5 + 5) st.totalPages : ℕ) : ℚ) / st.totalPages * 100 := by
      rw [List.get_eq_getElem]
      conv in (getAllPagesViaOptimizedDOM st out).2 => rw [hreps]
      rw [List.getElem_map, List.getElem_range]
    rw [hget, hlen]
    exact (percentage_eq_100_iff hn).trans (by omega)

/-- C9 witness: a seven-page run (two batches): the percentages are
monotone, and the second (final) report is the one equal to 100. -/
theorem C9_witness :
    (((getAllPagesViaOptimizedDOM { totalPages := 7, totalCount := 7 }
        fun _ => .failed).2.map (·.percentage)).Pairwise (· ≤ ·)) ∧
      ((getAllPagesViaOptimizedDOM { totalPages := 7, totalCount := 7 }
        fun _ => .failed).2.length = numBatches 7 5) := by
  have h := C9_progress { totalPages := 7, totalCount := 7 } (fun _ => .failed)
    (by decide)
  exact ⟨h.2.2.1, h.1⟩
theorem C5_witness :
    ((getAllPagesDataFastE {} fun _ =>
        (.error "boom" : Except String AcquisitionResult)).2.isProcessingAllPages
      = false) ∧
    ((getAllPagesDataFastE {} fun _ =>
        (.error "boom" : Except String AcquisitionResult)).1.success = false) ∧
    ((getAllPagesDataFastE {} fun _ =>
        (.error "boom" : Except String AcquisitionResult)).1.error = some "boom") ∧
    ((getAllPagesDataFastE {} fun _ =>
        (.error "boom" : Except String AcquisitionResult)).1.data = []) := by
  have h := C5_failure_result_and_flag {} fun _ =>
    (.error "boom" : Except String AcquisitionResult)
  have h2 := h.2 "boom" rfl
  exact ⟨h.1, h2.1, h2.2.1, h2.2.2⟩
